import Mathlib

/-!
Shallow embedding of the asset-lifecycle handlers of the virtual try-on
AR catalog server (src/modules/main.py, src/modules/admin.py,
src/modules/models.py, src/modules/config.py).

Modelling conventions:

* timestamps are `Nat` (`datetime.utcnow()` values are opaque instants,
  supplied to each handler as a `now` argument);
* Python floats are `Rat`; every float literal appearing in the handlers
  (0.0, 1.0, -1.0, 0.2) is exactly representable and no float arithmetic
  is performed on them;
* the filesystem is the set of paths that currently exist, split into
  regular files and directories; file contents are irrelevant to the
  handlers except for `len(content)`, which is taken directly from the
  uploaded bytes;
* `uuid.uuid4()` values are supplied as arguments;
* each handler is a pure function from its (form) inputs and the server
  state to a result carrying the new state.  `get_session` (config.py)
  opens a fresh ORM session per request and closes it when the handler
  returns; a session closed without `commit()` rolls its pending row
  mutations back, so a handler that raises (or re-renders an error page)
  before `commit()` leaves the database unchanged, while file writes and
  deletes performed before the raise do persist.  Accordingly the
  handlers below apply row mutations to the database only at the point
  of `session.commit()`.
-/

set_option autoImplicit false

namespace CodeRexAr

/-! ### Python string helpers -/

/-- `str.lower()` (ASCII case folding, as used on file names here). -/
def pyLower (s : String) : String := String.mk (s.data.map Char.toLower)

/-- Whitespace characters stripped by `str.strip()`. -/
def isPySpace (c : Char) : Bool :=
  c == ' ' || c == '\t' || c == '\n' || c == '\r' || c == '\x0b' || c == '\x0c'

/-- `str.strip()`. -/
def pyStrip (s : String) : String :=
  String.mk (((s.data.dropWhile isPySpace).reverse.dropWhile isPySpace).reverse)

/-- `str.endswith(t)`. -/
def pyEndsWith (s t : String) : Bool := List.isSuffixOf t.data s.data

/-- Digit run accepted by `int()`: ASCII digits and grouping underscores,
with no two consecutive underscores (underscores at either end are
rejected separately). -/
def pyDigitRun : List Char → Bool
  | [] => false
  | [c] => c.isDigit || c == '_'
  | c :: d :: rest =>
    (c.isDigit || c == '_') && !(c == '_' && d == '_') && pyDigitRun (d :: rest)

/-- `int(s)` for a base-10 string: strip whitespace, optional sign, then
digits with single grouping underscores strictly between digits.
`none` models `int` raising `ValueError`. -/
def pyIntParse (s : String) : Option Int :=
  let t := (pyStrip s).data
  let core : List Char :=
    match t with
    | '+' :: rest => rest
    | '-' :: rest => rest
    | _ => t
  let neg : Bool :=
    match t with
    | '-' :: _ => true
    | _ => false
  if pyDigitRun core ∧ core.head? ≠ some '_' ∧ core.getLast? ≠ some '_' then
    let v : Nat := (core.filter (fun c => !(c == '_'))).foldl (fun a c => a * 10 + (c.toNat - 48)) 0
    if neg then some (-(v : Int)) else some (v : Int)
  else none

/-! ### Path helpers (`pathlib`) -/

/-- Split a character list at every `'/'`. -/
def splitOnSlash : List Char → List (List Char)
  | [] => [[]]
  | c :: cs =>
    let r := splitOnSlash cs
    if c = '/' then [] :: r
    else
      match r with
      | h :: t => (c :: h) :: t
      | [] => [[c]]

/-- `pathlib.PurePath(s).name`: the final nonempty path component
(empty components, including trailing slashes, are dropped). -/
def pathName (s : String) : String :=
  String.mk ((((splitOnSlash s.data).filter (fun c => decide (c ≠ []))).getLast?).getD [])

/-- Last index of `c` in `cs`, if any. -/
def lastIdxOf (cs : List Char) (c : Char) : Option Nat :=
  match cs with
  | [] => none
  | x :: xs =>
    match lastIdxOf xs c with
    | some j => some (j + 1)
    | none => if x = c then some 0 else none

/-- `pathlib.PurePath(s).suffix`: the extension of the final component,
dot included; empty when the final component has no dot strictly inside
it (CPython: `0 < name.rfind('.') < len(name) - 1`). -/
def pySuffix (s : String) : String :=
  let name := (pathName s).data
  match lastIdxOf name '.' with
  | some i => if 0 < i ∧ i + 1 < name.length then String.mk (name.drop i) else ""
  | none => ""

/-- `pathlib.Path(a) / b` for a relative `b`; `Path(a) / "" == Path(a)`. -/
def pathJoin (a b : String) : String := if b = "" then a else a ++ "/" ++ b

/-! ### Filesystem state -/

/-- The server-visible filesystem: which paths exist as regular files
and which as directories.  Paths are relative to the process working
directory, exactly as in config.py. -/
structure FS where
  files : List String
  dirs : List String
deriving DecidableEq

/-- `Path(p).is_file()`-style check used to model `exists()`/`unlink()`. -/
def FS.isFile (fs : FS) (p : String) : Bool := decide (p ∈ fs.files)

def FS.isDir (fs : FS) (p : String) : Bool := decide (p ∈ fs.dirs)

/-- `Path(p).exists()`. -/
def FS.pathExists (fs : FS) (p : String) : Bool := fs.isFile p || fs.isDir p

/-- `open(p, "wb")` followed by `f.write(content)`: create or truncate
the regular file at `p` (overwrite semantics). -/
def FS.writeFile (fs : FS) (p : String) : FS :=
  if p ∈ fs.files then fs else { fs with files := p :: fs.files }

/-- `Path(p).unlink()` on a regular file. -/
def FS.removeFile (fs : FS) (p : String) : FS :=
  { fs with files := fs.files.filter (fun q => decide (q ≠ p)) }

/-- The source pattern `if p.exists(): p.unlink()`: removes a regular
file, is a no-op when nothing exists at `p`, and raises
`IsADirectoryError` (modelled as `Except.error ()`) when `p` is a
directory — `Path.unlink` cannot remove directories. -/
def unlinkIfPathExists (fs : FS) (p : String) : Except Unit FS :=
  if fs.isFile p then .ok (fs.removeFile p)
  else if fs.isDir p then .error ()
  else .ok fs

/-- config.py constants. -/
def UPLOAD_FOLDER : String := "models"

def STATIC_FOLDER : String := "static"

def THUMBNAILS_FOLDER : String := "static/thumbnails"

/-- Directories config.py creates (`folder.mkdir(exist_ok=True)`) before
any handler runs. -/
def initialDirs : List String := ["models", "static", "templates", "static/thumbnails"]

/-! ### Data model (src/modules/models.py) -/

/-- `AccessoryCategory` row. -/
structure AccessoryCategory where
  id : Nat
  name : String
  description : Option String := none
  anchor_index : Int
  created_at : Nat := 0
deriving DecidableEq

/-- `AccessoryModel` row, with the field defaults of models.py. -/
structure AccessoryModel where
  id : Nat
  uuid : String
  name : String
  description : Option String := none
  filename : String
  original_filename : String
  file_size : Nat
  file_type : String
  thumbnail_path : Option String := none
  category_id : Nat
  position_x : Rat := 0
  position_y : Rat := 0
  position_z : Rat := 0
  rotation_x : Rat := 0
  rotation_y : Rat := 0
  rotation_z : Rat := 0
  scale_x : Rat := 1
  scale_y : Rat := 1
  scale_z : Rat := 1
  anchor_index : Option Int := none
  is_active : Bool := true
  created_at : Nat := 0
  updated_at : Option Nat := none
deriving DecidableEq

/-- The relational store. -/
structure DB where
  categories : List AccessoryCategory
  models : List AccessoryModel
deriving DecidableEq

/-- Full server state: store plus upload/thumbnail directories. -/
structure State where
  db : DB
  fs : FS
deriving DecidableEq

/-- `session.exec(select(AccessoryCategory).where(name == n)).first()`. -/
def findCategoryByName (db : DB) (n : String) : Option AccessoryCategory :=
  db.categories.find? (fun c => c.name == n)

/-- `session.get(AccessoryCategory, i)` (primary-key lookup). -/
def findCategoryById (db : DB) (i : Nat) : Option AccessoryCategory :=
  db.categories.find? (fun c => c.id == i)

/-- `session.exec(select(AccessoryModel).where(uuid == u)).first()`. -/
def findModelByUuid (db : DB) (u : String) : Option AccessoryModel :=
  db.models.find? (fun m => m.uuid == u)

/-- `session.get(AccessoryModel, i)` (primary-key lookup). -/
def findModelById (db : DB) (i : Nat) : Option AccessoryModel :=
  db.models.find? (fun m => m.id == i)

/-- `session.commit()` after mutating the row fetched by primary key
`i`: the first row with that id is replaced by the mutated value. -/
def replaceFirstModelById : List AccessoryModel → Nat → AccessoryModel → List AccessoryModel
  | [], _, _ => []
  | m :: ms, i, nm => if m.id = i then nm :: ms else m :: replaceFirstModelById ms i nm

/-- Store-assigned autoincrement primary key for an inserted model row. -/
def nextModelId (db : DB) : Nat := (db.models.map (fun m => m.id)).foldr max 0 + 1

/-- A `fastapi.UploadFile`: client-supplied name and byte content. -/
structure UploadFileData where
  filename : String
  content : List Nat
deriving DecidableEq

/-- Handler outcome.
`jsonOk` — a JSON success response; `redirect` — the admin 303 redirect
on success; `formError` — the admin form re-rendered with an error
message (the broad `except Exception` path, session rolled back);
`httpError` — an `HTTPException` returned to the client. -/
inductive HResult where
  | jsonOk (st : State)
  | redirect (st : State)
  | formError (msg : String) (st : State)
  | httpError (code : Nat) (st : State)
deriving DecidableEq

/-! ### Admin handlers (src/modules/admin.py) -/

/-- The anchor-override block duplicated in `admin_create_model_post`
(admin.py:139-150) and `admin_edit_model_post` (admin.py:275-286):
when the anchor string is truthy and strips to a truthy string, parse it
with `int` (a `ValueError` is caught by the handler's broad `except`,
which re-renders the form); otherwise fall back to the target category's
default anchor, leaving `None` when the category id is unknown. -/
def parse_anchor_index (anchor_index : String) (category_id : Nat) (db : DB) :
    Except String (Option Int) :=
  if anchor_index ≠ "" ∧ pyStrip anchor_index ≠ "" then
    match pyIntParse anchor_index with
    | some n => .ok (some n)
    | none => .error ("Invalid anchor index: " ++ anchor_index)
  else
    match findCategoryById db category_id with
    | some category => .ok (some category.anchor_index)
    | none => .ok none

/-- Model-file block of `admin_create_model_post` (admin.py:176-191):
skipped when no file (or an empty filename) is supplied; a wrong
extension raises `ValueError` before any filesystem write; otherwise the
bytes are written as `<uuid><ext>` and the file fields recorded. -/
def admin_create_file_step (new_model : AccessoryModel) (model_file : Option UploadFileData)
    (fs : FS) : Except String (AccessoryModel × FS) :=
  match model_file with
  | none => .ok (new_model, fs)
  | some mf =>
    if mf.filename = "" then .ok (new_model, fs)
    else
      let ext := pyLower (pySuffix mf.filename)
      if ext = ".glb" ∨ ext = ".gltf" then
        let unique_name := new_model.uuid ++ ext
        .ok ({ new_model with
                filename := unique_name
                original_filename := mf.filename
                file_size := mf.content.length
                file_type := ext },
             fs.writeFile (pathJoin UPLOAD_FOLDER unique_name))
      else .error "Model file must be .glb or .gltf"

/-- Thumbnail block of `admin_create_model_post` (admin.py:194-204): a
wrong extension is silently skipped; a valid one is written as
`thumb_<uuid><ext>` under the thumbnails folder and the relative path
recorded. -/
def admin_create_thumb_step (new_model : AccessoryModel) (thumbnail_file : Option UploadFileData)
    (fs : FS) : AccessoryModel × FS :=
  match thumbnail_file with
  | none => (new_model, fs)
  | some tf =>
    if tf.filename = "" then (new_model, fs)
    else
      let ext := pyLower (pySuffix tf.filename)
      if ext = ".jpg" ∨ ext = ".jpeg" ∨ ext = ".png" ∨ ext = ".webp" then
        let unique_name := "thumb_" ++ new_model.uuid ++ ext
        ({ new_model with thumbnail_path := some ("thumbnails/" ++ unique_name) },
         fs.writeFile (pathJoin THUMBNAILS_FOLDER unique_name))
      else (new_model, fs)

/-- `admin_create_model_post` (admin.py:116-222).  FastAPI `Form`
defaults are applied to omitted fields: transforms default to 0 (scales
to 1), the anchor string to `""`, `is_active` to `None`.  On the
`except` path nothing was committed, so the database is unchanged. -/
def admin_create_model_post (name : String) (description : Option String) (category_id : Nat)
    (model_file thumbnail_file : Option UploadFileData)
    (position_x position_y position_z rotation_x rotation_y rotation_z : Option Rat)
    (scale_x scale_y scale_z : Option Rat)
    (anchor_index : String) (is_active : Option Bool)
    (new_uuid : String) (now : Nat) (st : State) : HResult :=
  match parse_anchor_index anchor_index category_id st.db with
  | .error msg => .formError msg st
  | .ok parsed_anchor_index =>
    let new_model : AccessoryModel :=
      { id := nextModelId st.db
        uuid := new_uuid
        name := name
        description := description
        filename := ""
        original_filename := ""
        file_size := 0
        file_type := ""
        thumbnail_path := none
        category_id := category_id
        position_x := position_x.getD 0
        position_y := position_y.getD 0
        position_z := position_z.getD 0
        rotation_x := rotation_x.getD 0
        rotation_y := rotation_y.getD 0
        rotation_z := rotation_z.getD 0
        scale_x := scale_x.getD 1
        scale_y := scale_y.getD 1
        scale_z := scale_z.getD 1
        anchor_index := parsed_anchor_index
        is_active := is_active.getD true
        created_at := now
        updated_at := none }
    match admin_create_file_step new_model model_file st.fs with
    | .error msg => .formError msg st
    | .ok (m1, fs1) =>
      let p := admin_create_thumb_step m1 thumbnail_file fs1
      .redirect { db := { st.db with models := st.db.models ++ [p.1] }, fs := p.2 }

/-- Model-file replacement block of `admin_edit_model_post`
(admin.py:306-327): validate extension (raising before any file
operation), delete the previous model file (guarded by the row's
filename being truthy and the path existing; `unlink` raises on a
directory), then write the new file named from the row's existing uuid.
Errors carry the filesystem as mutated before the raise. -/
def admin_edit_file_step (draft : AccessoryModel) (model_file : Option UploadFileData)
    (fs : FS) : Except (String × FS) (AccessoryModel × FS) :=
  match model_file with
  | none => .ok (draft, fs)
  | some mf =>
    if mf.filename = "" then .ok (draft, fs)
    else
      let ext := pyLower (pySuffix mf.filename)
      if ext = ".glb" ∨ ext = ".gltf" then
        let oldDel : Except Unit FS :=
          if draft.filename = "" then .ok fs
          else unlinkIfPathExists fs (pathJoin UPLOAD_FOLDER draft.filename)
        match oldDel with
        | .error _ => .error ("unlink: IsADirectoryError", fs)
        | .ok fsA =>
          let unique_name := draft.uuid ++ ext
          .ok ({ draft with
                  filename := unique_name
                  original_filename := mf.filename
                  file_size := mf.content.length
                  file_type := ext },
               fsA.writeFile (pathJoin UPLOAD_FOLDER unique_name))
      else .error ("Model file must be .glb or .gltf", fs)

/-- Thumbnail replacement block of `admin_edit_model_post`
(admin.py:330-346): a wrong extension is silently skipped; a valid one
first deletes the old thumbnail at `static/<thumbnail_path>` (when set
and existing) and then writes the new one. -/
def admin_edit_thumb_step (draft : AccessoryModel) (thumbnail_file : Option UploadFileData)
    (fs : FS) : Except (String × FS) (AccessoryModel × FS) :=
  match thumbnail_file with
  | none => .ok (draft, fs)
  | some tf =>
    if tf.filename = "" then .ok (draft, fs)
    else
      let ext := pyLower (pySuffix tf.filename)
      if ext = ".jpg" ∨ ext = ".jpeg" ∨ ext = ".png" ∨ ext = ".webp" then
        let oldDel : Except Unit FS :=
          match draft.thumbnail_path with
          | some tp =>
            if tp = "" then .ok fs
            else unlinkIfPathExists fs (pathJoin STATIC_FOLDER tp)
          | none => .ok fs
        match oldDel with
        | .error _ => .error ("unlink: IsADirectoryError", fs)
        | .ok fsA =>
          let unique_name := "thumb_" ++ draft.uuid ++ ext
          .ok ({ draft with thumbnail_path := some ("thumbnails/" ++ unique_name) },
               fsA.writeFile (pathJoin THUMBNAILS_FOLDER unique_name))
      else .ok (draft, fs)

/-- The field-update block of `admin_edit_model_post` (admin.py:289-303):
every basic field is overwritten from the form (transforms falling back
to the FastAPI `Form` defaults 0 / 1), `is_active` defaults to False
when omitted, and `updated_at` is stamped. -/
def edit_draft (model : AccessoryModel) (name : String) (description : Option String)
    (category_id : Nat)
    (position_x position_y position_z rotation_x rotation_y rotation_z : Option Rat)
    (scale_x scale_y scale_z : Option Rat)
    (parsed_anchor_index : Option Int) (is_active : Option Bool) (now : Nat) :
    AccessoryModel :=
  { model with
    name := name
    description := description
    category_id := category_id
    position_x := position_x.getD 0
    position_y := position_y.getD 0
    position_z := position_z.getD 0
    rotation_x := rotation_x.getD 0
    rotation_y := rotation_y.getD 0
    rotation_z := rotation_z.getD 0
    scale_x := scale_x.getD 1
    scale_y := scale_y.getD 1
    scale_z := scale_z.getD 1
    anchor_index := parsed_anchor_index
    is_active := is_active.getD false
    updated_at := some now }

/-- `admin_edit_model_post` (admin.py:247-364).  The source mutates the
fetched ORM row field by field before validating the replacement file;
the session is committed only at the end of the `try` block, and on the
`except` path the session is closed without commit (config.py
`get_session`), rolling the row mutations back — so the mutation is
modelled as a pure `draft` value applied to the store only at commit.
The raised `HTTPException` for an unknown id is caught by the same
broad `except` and re-rendered as a form error. -/
def admin_edit_model_post (model_id : Nat) (name : String) (description : Option String)
    (category_id : Nat) (model_file thumbnail_file : Option UploadFileData)
    (position_x position_y position_z rotation_x rotation_y rotation_z : Option Rat)
    (scale_x scale_y scale_z : Option Rat)
    (anchor_index : String) (is_active : Option Bool)
    (now : Nat) (st : State) : HResult :=
  match findModelById st.db model_id with
  | none => .formError "404: Model not found" st
  | some model =>
    match parse_anchor_index anchor_index category_id st.db with
    | .error msg => .formError msg st
    | .ok parsed_anchor_index =>
      let draft : AccessoryModel :=
        edit_draft model name description category_id position_x position_y position_z
          rotation_x rotation_y rotation_z scale_x scale_y scale_z
          parsed_anchor_index is_active now
      match admin_edit_file_step draft model_file st.fs with
      | .error (msg, fs1) => .formError msg { st with fs := fs1 }
      | .ok (d1, fs1) =>
        match admin_edit_thumb_step d1 thumbnail_file fs1 with
        | .error (msg, fs2) => .formError msg { st with fs := fs2 }
        | .ok (d2, fs2) =>
          .redirect { db := { st.db with models := replaceFirstModelById st.db.models model_id d2 }
                      fs := fs2 }

/-- `admin_delete_model` (admin.py:367-388): delete the model file
(guarded by a truthy filename), delete the thumbnail at
`static/<thumbnail_path>` (guarded by a truthy path), then delete the
row and commit.  There is no `try` here: an `unlink` raising (only
possible on a directory in this model) propagates as a 500 before the
commit, leaving the store unchanged. -/
def admin_delete_model (model_id : Nat) (st : State) : HResult :=
  match findModelById st.db model_id with
  | none => .httpError 404 st
  | some model =>
    let fileStep : Except Unit FS :=
      if model.filename = "" then .ok st.fs
      else unlinkIfPathExists st.fs (pathJoin UPLOAD_FOLDER model.filename)
    match fileStep with
    | .error _ => .httpError 500 st
    | .ok fs1 =>
      let thumbStep : Except Unit FS :=
        match model.thumbnail_path with
        | some tp =>
          if tp = "" then .ok fs1
          else unlinkIfPathExists fs1 (pathJoin STATIC_FOLDER tp)
        | none => .ok fs1
      match thumbStep with
      | .error _ => .httpError 500 { st with fs := fs1 }
      | .ok fs2 =>
        .redirect { db := { st.db with models := st.db.models.filter (fun m => decide (m.id ≠ model.id)) }
                    fs := fs2 }

/-- `admin_toggle_model` (admin.py:391-402): flip `is_active`, stamp
`updated_at`, commit.  No file interaction. -/
def admin_toggle_model (model_id : Nat) (now : Nat) (st : State) : HResult :=
  match findModelById st.db model_id with
  | none => .httpError 404 st
  | some model =>
    let updated := { model with is_active := !model.is_active, updated_at := some now }
    .jsonOk { db := { st.db with models := replaceFirstModelById st.db.models model_id updated }
              fs := st.fs }

/-! ### API handlers (src/modules/main.py) -/

/-- `upload_model` (main.py:82-155): validate the extension with
`filename.lower().endswith(('.glb', '.gltf'))`, look the category up by
name, write the file as `<uuid><suffix>`, then insert the row.
the float `0.2` is written `mkRat 1 5`.
`commitFails` models the `session.add`/`session.commit` pair raising
(a storage failure); the `except` block then deletes the just-written
file (if it exists) and returns a 500, with no row persisted. -/
def upload_model (file : UploadFileData) (category_name : String) (name : String)
    (description : Option String) (model_uuid : String) (now : Nat)
    (commitFails : Bool) (st : State) : HResult :=
  if pyEndsWith (pyLower file.filename) ".glb" || pyEndsWith (pyLower file.filename) ".gltf" then
    match findCategoryByName st.db category_name with
    | none => .httpError 400 st
    | some category =>
      let file_extension := pyLower (pySuffix file.filename)
      let unique_filename := model_uuid ++ file_extension
      let file_path := pathJoin UPLOAD_FOLDER unique_filename
      let fs1 := st.fs.writeFile file_path
      if commitFails then
        let fs2 := if fs1.pathExists file_path then fs1.removeFile file_path else fs1
        .httpError 500 { st with fs := fs2 }
      else
        let new_model : AccessoryModel :=
          { id := nextModelId st.db
            uuid := model_uuid
            name := name
            description := description
            filename := unique_filename
            original_filename := file.filename
            file_size := file.content.length
            file_type := file_extension
            thumbnail_path := none
            category_id := category.id
            position_x := 0
            position_y := 0
            position_z := -1
            rotation_x := 0
            rotation_y := 0
            rotation_z := 0
            scale_x := mkRat 1 5
            scale_y := mkRat 1 5
            scale_z := mkRat 1 5
            anchor_index := some category.anchor_index
            is_active := true
            created_at := now
            updated_at := none }
        .jsonOk { db := { st.db with models := st.db.models ++ [new_model] }, fs := fs1 }
  else .httpError 400 st

/-- `delete_model` (main.py:157-190): look the row up by uuid (404 when
absent), delete the model file at `UPLOAD_FOLDER / filename` (with no
guard on the filename being non-empty), delete the thumbnail at the raw
`thumbnail_path` — main.py:174-175 uses `Path(model.thumbnail_path)`
with no folder joined, unlike the admin variant — then delete the row
and commit.  Any exception inside the `try` yields a 500 with the
session rolled back. -/
def delete_model (model_uuid : String) (st : State) : HResult :=
  match findModelByUuid st.db model_uuid with
  | none => .httpError 404 st
  | some model =>
    match unlinkIfPathExists st.fs (pathJoin UPLOAD_FOLDER model.filename) with
    | .error _ => .httpError 500 st
    | .ok fs1 =>
      let thumbStep : Except Unit FS :=
        match model.thumbnail_path with
        | some tp =>
          if tp = "" then .ok fs1
          else unlinkIfPathExists fs1 tp
        | none => .ok fs1
      match thumbStep with
      | .error _ => .httpError 500 { st with fs := fs1 }
      | .ok fs2 =>
        .jsonOk { db := { st.db with models := st.db.models.filter (fun m => decide (m.id ≠ model.id)) }
                  fs := fs2 }

/-- One entry of the `GET /api/models` response (main.py:63-74). -/
structure ModelData where
  id : String
  name : String
  description : Option String
  filename : String
  thumbnail : Option String
  position : List Rat
  rotation : List Rat
  scale : List Rat
  anchor_index : Int
  created_at : Nat
deriving DecidableEq

/-- Python `model.anchor_index or category.anchor_index`: `or` falls
through on falsy values, i.e. on `None` and on `0`. -/
def pyOrInt (o : Option Int) (d : Int) : Int :=
  match o with
  | some n => if n = 0 then d else n
  | none => d

/-- The response entry built for one joined (model, category) row. -/
def modelDataOf (model : AccessoryModel) (category_obj : AccessoryCategory) : ModelData :=
  { id := model.uuid
    name := model.name
    description := model.description
    filename := model.filename
    thumbnail :=
      match model.thumbnail_path with
      | some tp => if tp = "" then none else some ("/static/" ++ tp)
      | none => none
    position := [model.position_x, model.position_y, model.position_z]
    rotation := [model.rotation_x, model.rotation_y, model.rotation_z]
    scale := [model.scale_x, model.scale_y, model.scale_z]
    anchor_index := pyOrInt model.anchor_index category_obj.anchor_index
    created_at := model.created_at }

/-- The join `select(AccessoryModel, AccessoryCategory).join(...)` with
the optional category-name and `is_active` filters (main.py:46-54). -/
def joinedModels (db : DB) (category : Option String) (active_only : Bool) :
    List (AccessoryModel × AccessoryCategory) :=
  (db.models.filterMap fun m =>
      (db.categories.find? (fun c => c.id == m.category_id)).map (fun c => (m, c)))
    |>.filter (fun mc =>
      (match category with
       | some cn => mc.2.name == cn
       | none => true) &&
      (!active_only || mc.1.is_active))

/-- `get_models` (main.py:39-80).  The source groups these entries into
a dict keyed by category name; the grouping is presentational and
preserves exactly these entries, so the flat list is returned here. -/
def get_models (db : DB) (category : Option String) (active_only : Bool) : List ModelData :=
  (joinedModels db category active_only).map (fun mc => modelDataOf mc.1 mc.2)

/-! ### Concrete instances used by the claim checks -/

/-- The seeded "hats" category (config.py:112-115): default anchor 10. -/
def hatsCat : AccessoryCategory := { id := 1, name := "hats", anchor_index := 10 }

def c1Model : AccessoryModel :=
  { id := 1, uuid := "u1", name := "Top Hat", filename := "u1.glb", original_filename := "hat.glb",
    file_size := 4, file_type := ".glb", thumbnail_path := some "thumbnails/u1.png", category_id := 1 }

def c1State : State :=
  { db := { categories := [hatsCat], models := [c1Model] },
    fs := { files := ["models/u1.glb", "static/thumbnails/u1.png"], dirs := initialDirs } }

def c1After : State :=
  { db := { categories := [hatsCat], models := [] },
    fs := { files := ["static/thumbnails/u1.png"], dirs := initialDirs } }

/-- An asset created through the admin form without a model file
(admin.py:169-172 stores empty file fields in that case). -/
def c2Model : AccessoryModel :=
  { id := 2, uuid := "u2", name := "Fileless", filename := "", original_filename := "",
    file_size := 0, file_type := "", category_id := 1 }

def c2State : State :=
  { db := { categories := [hatsCat], models := [c2Model] },
    fs := { files := [], dirs := initialDirs } }

def c3File : UploadFileData := { filename := "cap.glb", content := [1, 2, 3] }

def c3State : State :=
  { db := { categories := [hatsCat], models := [] }, fs := { files := [], dirs := initialDirs } }

/-- An asset whose anchor override is explicitly 0 (a valid face-landmark
index). -/
def c4Model : AccessoryModel :=
  { id := 3, uuid := "m0", name := "Zero Anchor Hat", filename := "m0.glb", original_filename := "m0.glb",
    file_size := 1, file_type := ".glb", category_id := 1, anchor_index := some 0 }

def c4Db : DB := { categories := [hatsCat], models := [c4Model] }

def c5Row : AccessoryModel :=
  { id := 1, uuid := "u5", name := "X", filename := "", original_filename := "",
    file_size := 0, file_type := "", category_id := 1, anchor_index := some 10 }

def c6File : UploadFileData := { filename := "notes.txt", content := [7] }

def c7File : UploadFileData := { filename := "new.gltf", content := [9, 9] }

def c8File : UploadFileData := { filename := "tophat.glb", content := [0, 1, 2, 3] }

/-- The row `upload_model` inserts for `c8File` (with uuid "u8", at time
9, into `c3State`): note position_z = -1 and scale 1/5 (= 0.2). -/
def c8Row : AccessoryModel :=
  { id := 1, uuid := "u8", name := "Top Hat", filename := "u8.glb", original_filename := "tophat.glb",
    file_size := 4, file_type := ".glb", category_id := 1,
    position_x := 0, position_y := 0, position_z := -1,
    scale_x := mkRat 1 5, scale_y := mkRat 1 5, scale_z := mkRat 1 5,
    anchor_index := some 10, created_at := 9 }

/-- State after uploading `c8File` into `c3State` (uuid "u8", time 9). -/
def c8After : State :=
  { db := { categories := [hatsCat], models := [c8Row] },
    fs := { files := ["models/u8.glb"], dirs := initialDirs } }

/-- State after the admin creation of `c5Row` into `c3State` (no files
attached, empty anchor string, uuid "u5", time 0). -/
def c5After : State :=
  { db := { categories := [hatsCat], models := [c5Row] },
    fs := { files := [], dirs := initialDirs } }

/-- `c2Model` after the witness edit for claim C10: name "Y", anchor
resolved to the "hats" default, `is_active` defaulted to False, stamped
at time 4. -/
def c10Row : AccessoryModel :=
  { c2Model with name := "Y", anchor_index := some 10, is_active := false, updated_at := some 4 }

def c10After : State :=
  { db := { categories := [hatsCat], models := [c10Row] }, fs := c2State.fs }

/-! ### Helper lemmas -/

theorem isFile_writeFile_self (fs : FS) (p : String) : (fs.writeFile p).isFile p = true := by
  unfold FS.writeFile FS.isFile
  split
  · simpa
  · simp

theorem isFile_writeFile_ne (fs : FS) {p q : String} (h : q ≠ p) :
    (fs.writeFile p).isFile q = fs.isFile q := by
  unfold FS.writeFile FS.isFile
  split
  · rfl
  · simp [h]

theorem isFile_removeFile_self (fs : FS) (p : String) : (fs.removeFile p).isFile p = false := by
  unfold FS.removeFile FS.isFile
  simp [List.mem_filter]

theorem isFile_removeFile_ne (fs : FS) {p q : String} (h : q ≠ p) :
    (fs.removeFile p).isFile q = fs.isFile q := by
  unfold FS.removeFile FS.isFile
  simp [List.mem_filter, h]

theorem pathExists_writeFile_self (fs : FS) (p : String) : (fs.writeFile p).pathExists p = true := by
  unfold FS.pathExists
  rw [isFile_writeFile_self]
  rfl

theorem dirs_writeFile (fs : FS) (p : String) : (fs.writeFile p).dirs = fs.dirs := by
  unfold FS.writeFile
  split <;> rfl

theorem dirs_removeFile (fs : FS) (p : String) : (fs.removeFile p).dirs = fs.dirs := by
  rfl

theorem str_data_append (a b : String) : (a ++ b).data = a.data ++ b.data := by
  cases a
  cases b
  rfl

theorem str_append_right_inj {a b c : String} (h : a ++ b = a ++ c) : b = c := by
  have hd := congrArg String.data h
  rw [str_data_append, str_data_append] at hd
  have hbc := List.append_cancel_left hd
  exact congrArg String.mk hbc

theorem str_append_ne_empty (a : String) {b : String} (hb : b ≠ "") : a ++ b ≠ "" := by
  intro h
  apply hb
  have hd := congrArg String.data h
  rw [str_data_append] at hd
  have hnil : b.data = [] := (List.append_eq_nil.mp hd).2
  cases b
  subst hnil
  rfl

theorem pathJoin_inj_right {a b c : String} (hb : b ≠ "") (hc : c ≠ "") :
    pathJoin a b = pathJoin a c → b = c := by
  intro h
  unfold pathJoin at h
  rw [if_neg hb, if_neg hc] at h
  exact str_append_right_inj h

theorem ne_empty_of_pyStrip_ne_empty {s : String} (h : pyStrip s ≠ "") : s ≠ "" := by
  intro hs
  subst hs
  exact h rfl

theorem findModelById_id {db : DB} {i : Nat} {m : AccessoryModel}
    (h : findModelById db i = some m) : m.id = i := by
  have := List.find?_some h
  simpa using this

theorem find_replaceFirstModelById {l : List AccessoryModel} {i : Nat} {m : AccessoryModel}
    (nm : AccessoryModel) (h : l.find? (fun x => x.id == i) = some m) (hnm : nm.id = i) :
    (replaceFirstModelById l i nm).find? (fun x => x.id == i) = some nm := by
  induction l with
  | nil => simp at h
  | cons a as ih =>
    unfold replaceFirstModelById
    by_cases ha : a.id = i
    · rw [if_pos ha]
      exact List.find?_cons_of_pos _ (by simpa using hnm)
    · rw [if_neg ha]
      rw [List.find?_cons_of_neg _ (by simpa using ha)]
      rw [List.find?_cons_of_neg _ (by simpa using ha)] at h
      exact ih h

theorem admin_create_file_step_fields {nm m1 : AccessoryModel} {mf : Option UploadFileData}
    {fs fs1 : FS} (h : admin_create_file_step nm mf fs = .ok (m1, fs1)) :
    m1.id = nm.id ∧ m1.uuid = nm.uuid ∧ m1.anchor_index = nm.anchor_index ∧
    m1.is_active = nm.is_active ∧
    m1.position_x = nm.position_x ∧ m1.position_y = nm.position_y ∧
    m1.position_z = nm.position_z ∧
    m1.rotation_x = nm.rotation_x ∧ m1.rotation_y = nm.rotation_y ∧
    m1.rotation_z = nm.rotation_z ∧
    m1.scale_x = nm.scale_x ∧ m1.scale_y = nm.scale_y ∧ m1.scale_z = nm.scale_z := by
  cases mf with
  | none =>
    simp only [admin_create_file_step] at h
    cases h
    simp
  | some f =>
    simp only [admin_create_file_step] at h
    repeat' split at h
    all_goals cases h <;> simp

theorem admin_create_thumb_step_fields (nm : AccessoryModel) (tf : Option UploadFileData)
    (fs : FS) :
    (admin_create_thumb_step nm tf fs).1.id = nm.id ∧
    (admin_create_thumb_step nm tf fs).1.uuid = nm.uuid ∧
    (admin_create_thumb_step nm tf fs).1.anchor_index = nm.anchor_index ∧
    (admin_create_thumb_step nm tf fs).1.is_active = nm.is_active ∧
    (admin_create_thumb_step nm tf fs).1.position_x = nm.position_x ∧
    (admin_create_thumb_step nm tf fs).1.position_y = nm.position_y ∧
    (admin_create_thumb_step nm tf fs).1.position_z = nm.position_z ∧
    (admin_create_thumb_step nm tf fs).1.rotation_x = nm.rotation_x ∧
    (admin_create_thumb_step nm tf fs).1.rotation_y = nm.rotation_y ∧
    (admin_create_thumb_step nm tf fs).1.rotation_z = nm.rotation_z ∧
    (admin_create_thumb_step nm tf fs).1.scale_x = nm.scale_x ∧
    (admin_create_thumb_step nm tf fs).1.scale_y = nm.scale_y ∧
    (admin_create_thumb_step nm tf fs).1.scale_z = nm.scale_z := by
  cases tf with
  | none => simp [admin_create_thumb_step]
  | some f =>
    simp only [admin_create_thumb_step]
    repeat' split
    all_goals simp

theorem admin_edit_file_step_fields {d m1 : AccessoryModel} {mf : Option UploadFileData}
    {fs fs1 : FS} (h : admin_edit_file_step d mf fs = .ok (m1, fs1)) :
    m1.id = d.id ∧ m1.uuid = d.uuid ∧ m1.anchor_index = d.anchor_index ∧
    m1.is_active = d.is_active ∧ m1.updated_at = d.updated_at := by
  cases mf with
  | none =>
    simp only [admin_edit_file_step] at h
    cases h
    simp
  | some f =>
    simp only [admin_edit_file_step] at h
    repeat' split at h
    all_goals cases h <;> simp

theorem admin_edit_thumb_step_fields {d m1 : AccessoryModel} {tf : Option UploadFileData}
    {fs fs1 : FS} (h : admin_edit_thumb_step d tf fs = .ok (m1, fs1)) :
    m1.id = d.id ∧ m1.uuid = d.uuid ∧ m1.anchor_index = d.anchor_index ∧
    m1.is_active = d.is_active ∧ m1.updated_at = d.updated_at ∧ m1.filename = d.filename := by
  cases tf with
  | none =>
    simp only [admin_edit_thumb_step] at h
    cases h
    simp
  | some f =>
    simp only [admin_edit_thumb_step] at h
    repeat' split at h
    all_goals cases h <;> simp

/-! ### Claim C1 -/

/-- Claim C1 fails on the code: for the asset `c1Model` (row present,
model file `models/u1.glb` and thumbnail `static/thumbnails/u1.png` both
on disk, `thumbnail_path = "thumbnails/u1.png"`), the API delete by uuid
succeeds and removes the row and the model file, but the thumbnail file
is still on disk afterwards: main.py:174-175 checks and unlinks
`Path(model.thumbnail_path)` — a path relative to the working directory
with no `static/` folder joined — so it can never name the thumbnail
that was written under `static/thumbnails/` (admin.py:381 joins
`Path("static")` correctly). -/
theorem c1_api_delete_leaves_thumbnail_file :
    delete_model "u1" c1State = .jsonOk c1After ∧
    c1Model.thumbnail_path = some "thumbnails/u1.png" ∧
    c1State.fs.isFile "static/thumbnails/u1.png" = true ∧
    c1After.fs.isFile "static/thumbnails/u1.png" = true ∧
    c1After.fs.isFile "models/u1.glb" = false ∧
    findModelByUuid c1After.db "u1" = none := by decide

/-! ### Claim C2 -/

/-- Claim C2 fails on the code: for the asset `c2Model`, whose `filename`
field is empty (as stored by an admin creation without a model file),
the API delete computes `UPLOAD_FOLDER / "" == "models"` — the upload
directory itself, which exists — and `unlink()` on it raises
`IsADirectoryError`, so the request returns 500 and the row is NOT
deleted, although no file removal applied.  (admin.py:375 guards with
`if model.filename:` and deletes the row fine, main.py:169 does not.) -/
theorem c2_api_delete_empty_filename_500 :
    delete_model "u2" c2State = .httpError 500 c2State ∧
    c2Model.filename = "" ∧
    pathJoin UPLOAD_FOLDER c2Model.filename = UPLOAD_FOLDER ∧
    c2State.fs.isDir UPLOAD_FOLDER = true ∧
    findModelByUuid c2State.db "u2" = some c2Model ∧
    admin_delete_model 2 c2State =
      .redirect { db := { categories := [hatsCat], models := [] }, fs := c2State.fs } := by decide

/-! ### Claim C4 -/

/-- Claim C4 fails as stated: the asset `c4Model` carries the anchor
override `some 0`, yet the listing reports anchor 10 (the category
default), because main.py:72 computes the anchor with Python `or`,
which treats the integer 0 as absent. -/
theorem c4_zero_override_counterexample :
    c4Model.anchor_index = some 0 ∧ hatsCat.anchor_index = 10 ∧
    (get_models c4Db none true).map (fun d => d.anchor_index) = [10] := by decide

/-- Claim C4 (amended): every entry of the model listing comes from a
joined (asset, category) row pair, and its reported anchor_index equals
the asset's override when that override is present and non-zero, and
equals the owning category's default anchor index when the override is
absent or equal to 0. -/
theorem c4_reported_anchor (db : DB) (category : Option String) (active_only : Bool)
    (d : ModelData) (hd : d ∈ get_models db category active_only) :
    ∃ m c, m ∈ db.models ∧ c ∈ db.categories ∧ m.category_id = c.id ∧ d.id = m.uuid ∧
      (m.anchor_index = none → d.anchor_index = c.anchor_index) ∧
      (m.anchor_index = some 0 → d.anchor_index = c.anchor_index) ∧
      (∀ n : Int, m.anchor_index = some n → n ≠ 0 → d.anchor_index = n) := by
  unfold get_models at hd
  rcases List.mem_map.mp hd with ⟨mc, hmc, hdm⟩
  unfold joinedModels at hmc
  rcases List.mem_filter.mp hmc with ⟨hmem, _hcond⟩
  rcases List.mem_filterMap.mp hmem with ⟨m, hm, hsome⟩
  rcases Option.map_eq_some'.mp hsome with ⟨c, hc, hpair⟩
  refine ⟨m, c, hm, List.mem_of_find?_eq_some hc, ?_, ?_, ?_, ?_, ?_⟩
  · have h2 : c.id = m.category_id := by simpa using List.find?_some hc
    exact h2.symm
  · rw [← hdm, ← hpair]
    rfl
  · intro h0
    rw [← hdm, ← hpair]
    simp [modelDataOf, pyOrInt, h0]
  · intro h0
    rw [← hdm, ← hpair]
    simp [modelDataOf, pyOrInt, h0]
  · intro n hn hn0
    rw [← hdm, ← hpair]
    simp [modelDataOf, pyOrInt, hn, hn0]

/-- Witness for `c4_reported_anchor` at a concrete listing entry. -/
theorem c4_reported_anchor_witness :
    ∃ m c, m ∈ c4Db.models ∧ c ∈ c4Db.categories ∧ m.category_id = c.id ∧
      (modelDataOf c4Model hatsCat).id = m.uuid ∧
      (m.anchor_index = none → (modelDataOf c4Model hatsCat).anchor_index = c.anchor_index) ∧
      (m.anchor_index = some 0 → (modelDataOf c4Model hatsCat).anchor_index = c.anchor_index) ∧
      (∀ n : Int, m.anchor_index = some n → n ≠ 0 →
        (modelDataOf c4Model hatsCat).anchor_index = n) :=
  c4_reported_anchor c4Db none true (modelDataOf c4Model hatsCat) (by decide)

/-! ### Claim C8 -/

/-- Claim C8 fails as stated: the API upload form indeed accepts no
transform fields, but main.py:127-129 hardcodes "default positioning"
of position (0, 0, -1) and scale 0.2 (not position 0 / scale 1 on all
axes): uploading `c8File` stores `c8Row`, whose position_z is -1 and
whose scales are 1/5. -/
theorem c8_upload_transform_counterexample :
    upload_model c8File "hats" "Top Hat" none "u8" 9 false c3State =
      .jsonOk { db := { categories := [hatsCat], models := [c8Row] },
                fs := { files := ["models/u8.glb"], dirs := initialDirs } } ∧
    c8Row.position_z = -1 ∧ c8Row.scale_x = mkRat 1 5 ∧
    ¬(c8Row.position_z = 0 ∧ c8Row.scale_x = 1) := by decide

/-! ### Claim C3 -/

/-- Claim C3 (confirmed): whenever the uploaded file passes the extension
check and the category is found — the situations in which the model file
is written — a failing store write makes the handler delete the written
file again and return the 500, with the database unchanged and no file
at the new uuid's path remaining on disk. -/
theorem c3_upload_rollback
    (file : UploadFileData) (category_name nm : String) (description : Option String)
    (model_uuid : String) (now : Nat) (st : State) (category : AccessoryCategory)
    (hext : (pyEndsWith (pyLower file.filename) ".glb" ||
             pyEndsWith (pyLower file.filename) ".gltf") = true)
    (hcat : findCategoryByName st.db category_name = some category) :
    upload_model file category_name nm description model_uuid now true st =
      .httpError 500
        { db := st.db
          fs := (st.fs.writeFile
                  (pathJoin UPLOAD_FOLDER (model_uuid ++ pyLower (pySuffix file.filename)))).removeFile
                  (pathJoin UPLOAD_FOLDER (model_uuid ++ pyLower (pySuffix file.filename))) } ∧
    ((st.fs.writeFile
        (pathJoin UPLOAD_FOLDER (model_uuid ++ pyLower (pySuffix file.filename)))).removeFile
        (pathJoin UPLOAD_FOLDER (model_uuid ++ pyLower (pySuffix file.filename)))).isFile
      (pathJoin UPLOAD_FOLDER (model_uuid ++ pyLower (pySuffix file.filename))) = false := by
  constructor
  · simp only [upload_model, hext, hcat, pathExists_writeFile_self]
    simp
  · exact isFile_removeFile_self _ _

/-- Witness for `c3_upload_rollback` at a concrete upload. -/
theorem c3_upload_rollback_witness :
    upload_model c3File "hats" "Cap" none "u3" 5 true c3State =
      .httpError 500
        { db := c3State.db
          fs := (c3State.fs.writeFile
                  (pathJoin UPLOAD_FOLDER ("u3" ++ pyLower (pySuffix c3File.filename)))).removeFile
                  (pathJoin UPLOAD_FOLDER ("u3" ++ pyLower (pySuffix c3File.filename))) } ∧
    ((c3State.fs.writeFile
        (pathJoin UPLOAD_FOLDER ("u3" ++ pyLower (pySuffix c3File.filename)))).removeFile
        (pathJoin UPLOAD_FOLDER ("u3" ++ pyLower (pySuffix c3File.filename)))).isFile
      (pathJoin UPLOAD_FOLDER ("u3" ++ pyLower (pySuffix c3File.filename))) = false :=
  c3_upload_rollback c3File "hats" "Cap" none "u3" 5 c3State hatsCat (by decide) (by decide)

/-- Claim C8 (amended): an API upload stores position (0, 0, -1),
rotation (0, 0, 0) and scale 0.2 (= 1/5) on all three axes; an admin
creation whose transform form fields are all omitted stores position and
rotation 0 on all three axes and scale 1 on all three axes. -/
theorem c8_created_transforms
    (file : UploadFileData) (category_name nm : String) (description : Option String)
    (model_uuid : String) (now : Nat) (st st1 : State)
    (cname : String) (cdesc : Option String) (cid : Nat)
    (cmf ctf : Option UploadFileData) (canchor : String) (cia : Option Bool)
    (cuuid : String) (cnow : Nat) (st2 : State) :
    (upload_model file category_name nm description model_uuid now false st = .jsonOk st1 →
      ∃ r, st1.db.models = st.db.models ++ [r] ∧
        r.position_x = 0 ∧ r.position_y = 0 ∧ r.position_z = -1 ∧
        r.rotation_x = 0 ∧ r.rotation_y = 0 ∧ r.rotation_z = 0 ∧
        r.scale_x = mkRat 1 5 ∧ r.scale_y = mkRat 1 5 ∧ r.scale_z = mkRat 1 5) ∧
    (admin_create_model_post cname cdesc cid cmf ctf none none none none none none
        none none none canchor cia cuuid cnow st = .redirect st2 →
      ∃ r, st2.db.models = st.db.models ++ [r] ∧
        r.position_x = 0 ∧ r.position_y = 0 ∧ r.position_z = 0 ∧
        r.rotation_x = 0 ∧ r.rotation_y = 0 ∧ r.rotation_z = 0 ∧
        r.scale_x = 1 ∧ r.scale_y = 1 ∧ r.scale_z = 1) := by
  constructor
  · intro hup
    simp only [upload_model] at hup
    split at hup
    · split at hup
      · cases hup
      · cases hup
        exact ⟨_, rfl, rfl, rfl, rfl, rfl, rfl, rfl, rfl, rfl, rfl⟩
    · cases hup
  · intro hcr
    simp only [admin_create_model_post] at hcr
    split at hcr
    · cases hcr
    · split at hcr
      · cases hcr
      · rename_i m1 fs1 heq
        cases hcr
        rcases admin_create_file_step_fields heq with
          ⟨_, _, _, _, hpx, hpy, hpz, hrx, hry, hrz, hsx, hsy, hsz⟩
        rcases admin_create_thumb_step_fields m1 ctf fs1 with
          ⟨_, _, _, _, tpx, tpy, tpz, trx, trY, trz, tsx, tsy, tsz⟩
        refine ⟨_, rfl, ?_, ?_, ?_, ?_, ?_, ?_, ?_, ?_, ?_⟩
        all_goals simp_all

/-- Witness for `c8_created_transforms` at concrete requests: the upload
of `c8File` and an admin creation with all transform fields omitted. -/
theorem c8_created_transforms_witness :
    (∃ r, c8After.db.models = c3State.db.models ++ [r] ∧
      r.position_x = 0 ∧ r.position_y = 0 ∧ r.position_z = -1 ∧
      r.rotation_x = 0 ∧ r.rotation_y = 0 ∧ r.rotation_z = 0 ∧
      r.scale_x = mkRat 1 5 ∧ r.scale_y = mkRat 1 5 ∧ r.scale_z = mkRat 1 5) ∧
    (∃ r, c5After.db.models = c3State.db.models ++ [r] ∧
      r.position_x = 0 ∧ r.position_y = 0 ∧ r.position_z = 0 ∧
      r.rotation_x = 0 ∧ r.rotation_y = 0 ∧ r.rotation_z = 0 ∧
      r.scale_x = 1 ∧ r.scale_y = 1 ∧ r.scale_z = 1) := by
  constructor
  · exact (c8_created_transforms c8File "hats" "Top Hat" none "u8" 9 c3State c8After
      "X" none 1 none none "" none "u5" 0 c5After).1 (by decide)
  · exact (c8_created_transforms c8File "hats" "Top Hat" none "u8" 9 c3State c8After
      "X" none 1 none none "" none "u5" 0 c5After).2 (by decide)

/-! ### Claim C5 -/

/-- Claim C5 (confirmed): in an admin asset creation against an existing
target category, an anchor string that is empty or whitespace-only makes
the stored anchor the category's default anchor index, and an anchor
string that is non-empty after stripping but does not parse as an
integer makes the handler fail with the "Invalid anchor index"
validation error and leaves the state — rows and files — unchanged. -/
theorem c5_create_anchor_rules
    (name : String) (description : Option String) (category_id : Nat)
    (model_file thumbnail_file : Option UploadFileData)
    (px py pz rx ry rz sx sy sz : Option Rat)
    (anchor_index : String) (is_active : Option Bool)
    (new_uuid : String) (now : Nat) (st : State) (cat : AccessoryCategory)
    (hcat : findCategoryById st.db category_id = some cat) :
    (pyStrip anchor_index = "" →
      ∀ st1, admin_create_model_post name description category_id model_file thumbnail_file
          px py pz rx ry rz sx sy sz anchor_index is_active new_uuid now st = .redirect st1 →
        ∃ r, st1.db.models = st.db.models ++ [r] ∧ r.anchor_index = some cat.anchor_index) ∧
    (pyStrip anchor_index ≠ "" → pyIntParse anchor_index = none →
      admin_create_model_post name description category_id model_file thumbnail_file
          px py pz rx ry rz sx sy sz anchor_index is_active new_uuid now st =
        .formError ("Invalid anchor index: " ++ anchor_index) st) := by
  constructor
  · intro hs st1 hred
    have hparse : parse_anchor_index anchor_index category_id st.db =
        .ok (some cat.anchor_index) := by
      unfold parse_anchor_index
      rw [if_neg (by simp [hs]), hcat]
    simp only [admin_create_model_post, hparse] at hred
    split at hred
    · cases hred
    · rename_i m1 fs1 heq
      cases hred
      rcases admin_create_file_step_fields heq with ⟨_, _, hanch, _⟩
      rcases admin_create_thumb_step_fields m1 thumbnail_file fs1 with ⟨_, _, tanch, _⟩
      exact ⟨_, rfl, by simp_all⟩
  · intro hs hparse
    have hne : anchor_index ≠ "" := ne_empty_of_pyStrip_ne_empty hs
    unfold admin_create_model_post parse_anchor_index
    rw [if_pos ⟨hne, hs⟩, hparse]

/-- Witness for `c5_create_anchor_rules`: an empty anchor string stores
the "hats" default 10, and the string "abc" is rejected with no state
change. -/
theorem c5_create_anchor_rules_witness :
    (∃ r, c5After.db.models = c3State.db.models ++ [r] ∧ r.anchor_index = some hatsCat.anchor_index) ∧
    admin_create_model_post "X" none 1 none none none none none none none none none none none
        "abc" none "u5" 0 c3State = .formError ("Invalid anchor index: " ++ "abc") c3State := by
  constructor
  · exact (c5_create_anchor_rules "X" none 1 none none none none none none none none none
      none none "" none "u5" 0 c3State hatsCat (by decide)).1 (by decide) c5After (by decide)
  · exact (c5_create_anchor_rules "X" none 1 none none none none none none none none none
      none none "abc" none "u5" 0 c3State hatsCat (by decide)).2 (by decide) (by decide)

/-! ### Claim C6 -/

/-- Claim C6 (confirmed): an admin edit that supplies a replacement model
file with an extension other than .glb/.gltf (case-insensitive, via
`lower()`) re-renders the form with an error and the state is exactly
the prior one: the handler raises before any filesystem operation, the
session is committed only at the end of the `try`, and the session
closing without commit (config.py `get_session`) rolls the field
mutations back — so the asset keeps every prior persisted field value
and no file is written or deleted. -/
theorem c6_edit_invalid_extension_atomic
    (model_id : Nat) (name : String) (description : Option String) (category_id : Nat)
    (model_file thumbnail_file : Option UploadFileData)
    (px py pz rx ry rz sx sy sz : Option Rat)
    (anchor_index : String) (is_active : Option Bool) (now : Nat)
    (st : State) (model : AccessoryModel) (mf : UploadFileData)
    (hm : findModelById st.db model_id = some model)
    (hmf : model_file = some mf)
    (hfn : mf.filename ≠ "")
    (hext : ¬(pyLower (pySuffix mf.filename) = ".glb" ∨ pyLower (pySuffix mf.filename) = ".gltf")) :
    ∃ msg, admin_edit_model_post model_id name description category_id model_file thumbnail_file
        px py pz rx ry rz sx sy sz anchor_index is_active now st = .formError msg st := by
  subst hmf
  rcases hpa : parse_anchor_index anchor_index category_id st.db with msg | a
  · refine ⟨msg, ?_⟩
    simp only [admin_edit_model_post, hm, hpa]
  · refine ⟨"Model file must be .glb or .gltf", ?_⟩
    simp only [admin_edit_model_post, hm, hpa, admin_edit_file_step, hfn, hext]
    simp

/-- Witness for `c6_edit_invalid_extension_atomic`: editing `c1Model`
with the replacement file "notes.txt" changes nothing. -/
theorem c6_edit_invalid_extension_atomic_witness :
    ∃ msg, admin_edit_model_post 1 "New Name" none 1 (some c6File) none
        none none none none none none none none none "" none 3 c1State = .formError msg c1State :=
  c6_edit_invalid_extension_atomic 1 "New Name" none 1 (some c6File) none
    none none none none none none none none none "" none 3 c1State c1Model c6File
    (by decide) rfl (by decide) (by decide)

/-- Inversion of a successful `admin_edit_model_post`: the row was
found, the anchor parsed, both file steps succeeded, and the commit
replaced the row with the final draft. -/
theorem admin_edit_redirect_inv
    {model_id : Nat} {name : String} {description : Option String} {category_id : Nat}
    {model_file thumbnail_file : Option UploadFileData}
    {px py pz rx ry rz sx sy sz : Option Rat}
    {anchor_index : String} {is_active : Option Bool} {now : Nat} {st st2 : State}
    (hred : admin_edit_model_post model_id name description category_id model_file
      thumbnail_file px py pz rx ry rz sx sy sz anchor_index is_active now st =
      .redirect st2) :
    ∃ m pa d1 fs1 d2 fs2,
      findModelById st.db model_id = some m ∧
      parse_anchor_index anchor_index category_id st.db = .ok pa ∧
      admin_edit_file_step
        (edit_draft m name description category_id px py pz rx ry rz sx sy sz pa is_active now)
        model_file st.fs = .ok (d1, fs1) ∧
      admin_edit_thumb_step d1 thumbnail_file fs1 = .ok (d2, fs2) ∧
      st2 = { db := { st.db with models := replaceFirstModelById st.db.models model_id d2 }
              fs := fs2 } := by
  unfold admin_edit_model_post at hred
  split at hred
  · cases hred
  · rename_i m hm
    split at hred
    · cases hred
    · rename_i pa hpa
      simp only [] at hred
      split at hred
      · cases hred
      · rename_i d1 fs1 hfs
        split at hred
        · cases hred
        · rename_i d2 fs2 hts
          cases hred
          exact ⟨m, pa, d1, fs1, d2, fs2, hm, hpa, hfs, hts, rfl⟩

/-! ### Claim C9 -/

/-- Claim C9 (confirmed): toggling an existing asset twice returns
`is_active` to its original value; the first toggle stores the flipped
flag stamped with the first time, the second stores a row identical to
the original except `updated_at` is the second time (so every other
field is back to its original value); both requests leave the
filesystem untouched and the categories unchanged. -/
theorem c9_toggle_twice (model_id t1 t2 : Nat) (st : State) (m : AccessoryModel)
    (hm : findModelById st.db model_id = some m) :
    ∃ st1 st2,
      admin_toggle_model model_id t1 st = .jsonOk st1 ∧
      admin_toggle_model model_id t2 st1 = .jsonOk st2 ∧
      st1.fs = st.fs ∧ st2.fs = st.fs ∧
      st1.db.categories = st.db.categories ∧ st2.db.categories = st.db.categories ∧
      findModelById st1.db model_id =
        some { m with is_active := !m.is_active, updated_at := some t1 } ∧
      findModelById st2.db model_id = some { m with updated_at := some t2 } := by
  have hid : m.id = model_id := findModelById_id hm
  have h1 : admin_toggle_model model_id t1 st = .jsonOk
      { db := { st.db with models := (replaceFirstModelById st.db.models model_id
          { m with is_active := !m.is_active, updated_at := some t1 }) }
        fs := st.fs } := by
    simp only [admin_toggle_model, hm]
  have hf1 : findModelById
      { st.db with models := (replaceFirstModelById st.db.models model_id
          { m with is_active := !m.is_active, updated_at := some t1 }) } model_id =
      some { m with is_active := !m.is_active, updated_at := some t1 } :=
    find_replaceFirstModelById _ hm hid
  have h2 : admin_toggle_model model_id t2
      { db := { st.db with models := (replaceFirstModelById st.db.models model_id
          { m with is_active := !m.is_active, updated_at := some t1 }) }
        fs := st.fs } = .jsonOk
      { db := { st.db with models := (replaceFirstModelById
          (replaceFirstModelById st.db.models model_id
            { m with is_active := !m.is_active, updated_at := some t1 }) model_id
          { m with updated_at := some t2 }) }
        fs := st.fs } := by
    simp only [admin_toggle_model, hf1, Bool.not_not]
  have hf2 : findModelById
      { st.db with models := (replaceFirstModelById
          (replaceFirstModelById st.db.models model_id
            { m with is_active := !m.is_active, updated_at := some t1 }) model_id
          { m with updated_at := some t2 }) } model_id =
      some { m with updated_at := some t2 } :=
    find_replaceFirstModelById _ hf1 hid
  exact ⟨_, _, h1, h2, rfl, rfl, rfl, rfl, hf1, hf2⟩

/-- Witness for `c9_toggle_twice`: toggling `c2Model` at times 7 then 8. -/
theorem c9_toggle_twice_witness :
    ∃ st1 st2,
      admin_toggle_model 2 7 c2State = .jsonOk st1 ∧
      admin_toggle_model 2 8 st1 = .jsonOk st2 ∧
      st1.fs = c2State.fs ∧ st2.fs = c2State.fs ∧
      st1.db.categories = c2State.db.categories ∧ st2.db.categories = c2State.db.categories ∧
      findModelById st1.db 2 =
        some { c2Model with is_active := !c2Model.is_active, updated_at := some 7 } ∧
      findModelById st2.db 2 = some { c2Model with updated_at := some 8 } :=
  c9_toggle_twice 2 7 8 c2State c2Model (by decide)

/-! ### Claim C10 -/

/-- Claim C10 (confirmed): with the `is_active` form field omitted
(`None`), an admin creation stores the asset active
(admin.py:168 defaults to True) while an admin edit stores it inactive
(admin.py:302 defaults to False) — so re-submitting an active asset's
edit form without the field deactivates it. -/
theorem c10_is_active_defaults
    (name : String) (description : Option String) (category_id : Nat)
    (model_file thumbnail_file : Option UploadFileData)
    (px py pz rx ry rz sx sy sz : Option Rat) (anchor_index : String)
    (new_uuid : String) (now : Nat) (st : State) (model_id : Nat) :
    (∀ st1, admin_create_model_post name description category_id model_file thumbnail_file
        px py pz rx ry rz sx sy sz anchor_index none new_uuid now st = .redirect st1 →
      ∃ r, st1.db.models = st.db.models ++ [r] ∧ r.is_active = true) ∧
    (∀ st2 m, findModelById st.db model_id = some m →
      admin_edit_model_post model_id name description category_id model_file thumbnail_file
        px py pz rx ry rz sx sy sz anchor_index none now st = .redirect st2 →
      ∃ r, findModelById st2.db model_id = some r ∧ r.is_active = false) := by
  constructor
  · intro st1 hred
    simp only [admin_create_model_post] at hred
    split at hred
    · cases hred
    · split at hred
      · cases hred
      · rename_i m1 fs1 heq
        cases hred
        rcases admin_create_file_step_fields heq with ⟨_, _, _, hact, _⟩
        rcases admin_create_thumb_step_fields m1 thumbnail_file fs1 with ⟨_, _, _, tact, _⟩
        exact ⟨_, rfl, by simp_all⟩
  · intro st2 m hm hred
    rcases admin_edit_redirect_inv hred with ⟨m', pa, d1, fs1, d2, fs2, hm', hpa, hfs, hts, rfl⟩
    have hmm : m' = m := Option.some.inj (hm'.symm.trans hm)
    subst hmm
    rcases admin_edit_file_step_fields hfs with ⟨hid1, _, _, hact1, _⟩
    rcases admin_edit_thumb_step_fields hts with ⟨hid2, _, _, hact2, _⟩
    have hd2id : d2.id = model_id := by
      rw [hid2, hid1]
      show m'.id = model_id
      exact findModelById_id hm
    have hfind : findModelById
        { st.db with models := replaceFirstModelById st.db.models model_id d2 } model_id =
        some d2 :=
      find_replaceFirstModelById d2 hm hd2id
    refine ⟨d2, hfind, ?_⟩
    rw [hact2, hact1]
    rfl

/-- Witness for `c10_is_active_defaults`: a creation with `is_active`
omitted stores an active row; an edit of `c2Model` with `is_active`
omitted stores an inactive row. -/
theorem c10_is_active_defaults_witness :
    (∃ r, c5After.db.models = c3State.db.models ++ [r] ∧ r.is_active = true) ∧
    (∃ r, findModelById c10After.db 2 = some r ∧ r.is_active = false) := by
  constructor
  · exact (c10_is_active_defaults "X" none 1 none none none none none none none none
      none none none "" "u5" 0 c3State 2).1 c5After (by decide)
  · exact (c10_is_active_defaults "Y" none 1 none none none none none none none none
      none none none "" "u5" 4 c2State 2).2 c10After c2Model (by decide) (by decide)

/-! ### Claim C7 -/

/-- Claim C7 (confirmed): an admin edit that supplies a valid (.glb or
.gltf) replacement model file — and no simultaneous thumbnail
replacement — succeeds, stores `<uuid><ext>` built from the row's
already-assigned uuid as the new filename, and afterwards exactly one
model file for that uuid exists in the upload folder, namely the new
one: the handler deletes the previous model file first (when the row's
filename names an existing regular file) and then writes the new name.
Hypotheses: the anchor string does not fail parsing, the old path is
not a directory, and every model file for this uuid on disk beforehand
is the one the row names. -/
theorem c7_edit_replacement_single_file
    (model_id : Nat) (name : String) (description : Option String) (category_id : Nat)
    (model_file thumbnail_file : Option UploadFileData)
    (px py pz rx ry rz sx sy sz : Option Rat)
    (anchor_index : String) (is_active : Option Bool) (now : Nat)
    (st : State) (model : AccessoryModel) (mf : UploadFileData) (pa : Option Int)
    (hm : findModelById st.db model_id = some model)
    (hmf : model_file = some mf)
    (hfn : ¬mf.filename = "")
    (hext : pyLower (pySuffix mf.filename) = ".glb" ∨ pyLower (pySuffix mf.filename) = ".gltf")
    (hpa : parse_anchor_index anchor_index category_id st.db = .ok pa)
    (hthumb : thumbnail_file = none)
    (hnd : st.fs.isDir (pathJoin UPLOAD_FOLDER model.filename) = false)
    (hclean : ∀ e, (e = ".glb" ∨ e = ".gltf") →
      st.fs.isFile (pathJoin UPLOAD_FOLDER (model.uuid ++ e)) = true →
      model.uuid ++ e = model.filename) :
    ∃ st2, admin_edit_model_post model_id name description category_id model_file
        thumbnail_file px py pz rx ry rz sx sy sz anchor_index is_active now st =
        .redirect st2 ∧
      (∃ r, findModelById st2.db model_id = some r ∧
        r.uuid = model.uuid ∧ r.filename = model.uuid ++ pyLower (pySuffix mf.filename)) ∧
      (∀ e, (e = ".glb" ∨ e = ".gltf") →
        (st2.fs.isFile (pathJoin UPLOAD_FOLDER (model.uuid ++ e)) = true ↔
          e = pyLower (pySuffix mf.filename))) := by
  subst hmf
  subst hthumb
  have hextne : pyLower (pySuffix mf.filename) ≠ "" := by
    rcases hext with h | h <;> rw [h] <;> decide
  have hold : ∃ fsA,
      (if (edit_draft model name description category_id px py pz rx ry rz sx sy sz
          pa is_active now).filename = "" then Except.ok st.fs
        else unlinkIfPathExists st.fs (pathJoin UPLOAD_FOLDER
          (edit_draft model name description category_id px py pz rx ry rz sx sy sz
            pa is_active now).filename)) = .ok fsA ∧
      fsA.dirs = st.fs.dirs ∧
      (∀ e, (e = ".glb" ∨ e = ".gltf") → e ≠ pyLower (pySuffix mf.filename) →
        fsA.isFile (pathJoin UPLOAD_FOLDER (model.uuid ++ e)) = false) := by
    have hdf : (edit_draft model name description category_id px py pz rx ry rz sx sy sz
        pa is_active now).filename = model.filename := rfl
    rw [hdf]
    by_cases hempty : model.filename = ""
    · refine ⟨st.fs, by rw [if_pos hempty], rfl, ?_⟩
      intro e he _hne
      cases hb : st.fs.isFile (pathJoin UPLOAD_FOLDER (model.uuid ++ e)) with
      | false => rfl
      | true =>
        have hee : e ≠ "" := by rcases he with h | h <;> subst h <;> decide
        exact absurd ((hclean e he hb).trans hempty) (str_append_ne_empty _ hee)
    · rw [if_neg hempty]
      unfold unlinkIfPathExists
      by_cases hisf : st.fs.isFile (pathJoin UPLOAD_FOLDER model.filename) = true
      · refine ⟨st.fs.removeFile (pathJoin UPLOAD_FOLDER model.filename),
          by rw [if_pos hisf], dirs_removeFile st.fs _, ?_⟩
        intro e he _hne
        have hee : e ≠ "" := by rcases he with h | h <;> subst h <;> decide
        by_cases hsame : model.uuid ++ e = model.filename
        · rw [show pathJoin UPLOAD_FOLDER (model.uuid ++ e) =
              pathJoin UPLOAD_FOLDER model.filename by rw [hsame]]
          exact isFile_removeFile_self _ _
        · have hpne : pathJoin UPLOAD_FOLDER (model.uuid ++ e) ≠
              pathJoin UPLOAD_FOLDER model.filename := by
            intro hco
            exact hsame (pathJoin_inj_right (str_append_ne_empty _ hee) hempty hco)
          rw [isFile_removeFile_ne _ hpne]
          cases hb : st.fs.isFile (pathJoin UPLOAD_FOLDER (model.uuid ++ e)) with
          | false => rfl
          | true => exact absurd (hclean e he hb) hsame
      · have hisf' : st.fs.isFile (pathJoin UPLOAD_FOLDER model.filename) = false :=
          Bool.eq_false_iff.mpr hisf
        rw [if_neg hisf]
        rw [if_neg (by rw [hnd]; exact Bool.false_ne_true)]
        refine ⟨st.fs, rfl, rfl, ?_⟩
        intro e he _hne
        cases hb : st.fs.isFile (pathJoin UPLOAD_FOLDER (model.uuid ++ e)) with
        | false => rfl
        | true =>
          have hsame := hclean e he hb
          rw [show pathJoin UPLOAD_FOLDER (model.uuid ++ e) =
              pathJoin UPLOAD_FOLDER model.filename by rw [hsame]] at hb
          exact absurd hb hisf
  obtain ⟨fsA, hA, _hAdirs, hAprop⟩ := hold
  have hstep : admin_edit_file_step
      (edit_draft model name description category_id px py pz rx ry rz sx sy sz
        pa is_active now) (some mf) st.fs =
      .ok ({ edit_draft model name description category_id px py pz rx ry rz sx sy sz
              pa is_active now with
             filename := model.uuid ++ pyLower (pySuffix mf.filename)
             original_filename := mf.filename
             file_size := mf.content.length
             file_type := pyLower (pySuffix mf.filename) },
           fsA.writeFile (pathJoin UPLOAD_FOLDER
             (model.uuid ++ pyLower (pySuffix mf.filename)))) := by
    simp only [admin_edit_file_step, if_neg hfn, if_pos hext, hA]
    rfl
  have hmain : admin_edit_model_post model_id name description category_id (some mf)
      none px py pz rx ry rz sx sy sz anchor_index is_active now st =
      .redirect
        { db := { st.db with models := (replaceFirstModelById st.db.models model_id
            { edit_draft model name description category_id px py pz rx ry rz sx sy sz
                pa is_active now with
              filename := model.uuid ++ pyLower (pySuffix mf.filename)
              original_filename := mf.filename
              file_size := mf.content.length
              file_type := pyLower (pySuffix mf.filename) }) }
          fs := fsA.writeFile (pathJoin UPLOAD_FOLDER
            (model.uuid ++ pyLower (pySuffix mf.filename))) } := by
    simp only [admin_edit_model_post, hm, hpa, hstep, admin_edit_thumb_step]
  have hrid : ({ edit_draft model name description category_id px py pz rx ry rz sx sy sz
        pa is_active now with
      filename := model.uuid ++ pyLower (pySuffix mf.filename)
      original_filename := mf.filename
      file_size := mf.content.length
      file_type := pyLower (pySuffix mf.filename) } : AccessoryModel).id = model_id := by
    show model.id = model_id
    exact findModelById_id hm
  refine ⟨_, hmain, ⟨_, find_replaceFirstModelById _ hm hrid, rfl, rfl⟩, ?_⟩
  intro e he
  by_cases heq : e = pyLower (pySuffix mf.filename)
  · subst heq
    simp [isFile_writeFile_self]
  · have hee : e ≠ "" := by rcases he with h | h <;> subst h <;> decide
    have hpne : pathJoin UPLOAD_FOLDER (model.uuid ++ e) ≠
        pathJoin UPLOAD_FOLDER (model.uuid ++ pyLower (pySuffix mf.filename)) := by
      intro hco
      exact heq (str_append_right_inj
        (pathJoin_inj_right (str_append_ne_empty _ hee) (str_append_ne_empty _ hextne) hco))
    rw [isFile_writeFile_ne _ hpne, hAprop e he heq]
    simp [heq]

/-- Witness for `c7_edit_replacement_single_file`: replacing
`c1Model`'s `.glb` file with the `.gltf` file `c7File` leaves exactly
`models/u1.gltf` on disk. -/
theorem c7_edit_replacement_single_file_witness :
    ∃ st2, admin_edit_model_post 1 "Top Hat" none 1 (some c7File) none
        none none none none none none none none none "" none 5 c1State = .redirect st2 ∧
      (∃ r, findModelById st2.db 1 = some r ∧
        r.uuid = c1Model.uuid ∧
        r.filename = c1Model.uuid ++ pyLower (pySuffix c7File.filename)) ∧
      (∀ e, (e = ".glb" ∨ e = ".gltf") →
        (st2.fs.isFile (pathJoin UPLOAD_FOLDER (c1Model.uuid ++ e)) = true ↔
          e = pyLower (pySuffix c7File.filename))) :=
  c7_edit_replacement_single_file 1 "Top Hat" none 1 (some c7File) none
    none none none none none none none none none "" none 5 c1State c1Model c7File (some 10)
    (by decide) rfl (by decide) (by decide) (by rfl) rfl (by decide)
    (by
      intro e he hb
      rcases he with rfl | rfl
      · decide
      · exact absurd hb (by decide))

end CodeRexAr
